import Mathlib

/-!
Shallow embedding of the thimble renderer core: the occupancy-grid decode
pipeline (`OccupancyGrids.ts`) and the pose-array pool manager
(`PoseArrays`), together with proofs of the behavioural claims about them.

JavaScript conventions used throughout the embedding:
* signed byte buffers (`Int8Array`) are `List ℤ`;
* unsigned pixel buffers (`Uint8ClampedArray`) are `List ℕ`;
* reading a typed array out of range yields `undefined`, which the arithmetic
  contexts of the source coerce to `0` (via `ToInt32`), so such reads are
  modelled with `getD`/`getElem?`;
* writing a typed array out of range is silently dropped, which is exactly
  `List.set`'s out-of-range behaviour;
* a JavaScript number that can be `NaN` (for example `0 / 0`) is modelled as
  an `Option` value, `none` standing for `NaN`.
-/

set_option maxRecDepth 8192

namespace Thimble

/-! ### Common message model -/

structure Vec3Q where
  x : ℚ
  y : ℚ
  z : ℚ
deriving DecidableEq

structure QuatQ where
  x : ℚ
  y : ℚ
  z : ℚ
  w : ℚ
deriving DecidableEq

structure PoseQ where
  position : Vec3Q
  orientation : QuatQ
deriving DecidableEq

structure HeaderQ where
  stamp : ℤ
  frame_id : String
deriving DecidableEq

structure ColorQ where
  r : ℚ
  g : ℚ
  b : ℚ
  a : ℚ
deriving DecidableEq

/-! ### Occupancy grids: canonical grid and texture state (OccupancyGrids.ts) -/

structure GridInfo where
  mapLoadTime : ℤ
  resolution : ℚ
  width : ℕ
  height : ℕ
  origin : PoseQ
deriving DecidableEq

structure OccGrid where
  header : HeaderQ
  info : GridInfo
  data : List ℤ
deriving DecidableEq

/-- The state of the `THREE.DataTexture` backing a grid renderable: the
dimensions it was created with and its RGBA pixel buffer.  `gen` is a
generation counter standing for the object identity of the backing buffer:
`createTexture` always returns a fresh generation. -/
structure Texture where
  gen : ℕ
  width : ℕ
  height : ℕ
  image : List ℕ
deriving DecidableEq

/-- `createTexture`: a fresh zero-filled RGBA buffer of `width*height*4`
bytes (`new Uint8ClampedArray(size * 4)`). -/
def createTexture (grid : OccGrid) (gen : ℕ) : Texture :=
  { gen := gen
    width := grid.info.width
    height := grid.info.height
    image := List.replicate (grid.info.width * grid.info.height * 4) 0 }

/-- JavaScript `data[i]! & 0xFF` on a signed-byte array: out-of-range reads
give `undefined` which `& 0xFF` coerces to `0`; in-range signed values are
reduced mod 256. -/
def cellByte (data : List ℤ) (i : ℕ) : ℕ :=
  ((data.getD i 0) % 256).toNat

/-- An RGBA byte quadruple as written into the texture buffer. -/
structure ColorN where
  r : ℕ
  g : ℕ
  b : ℕ
  a : ℕ
deriving DecidableEq

/-- The `"/traffic_map"` palette branch of `updateTexture`. -/
def paletteTraffic (value : ℕ) : ColorN :=
  if value = 0 then ⟨0, 255, 0, 128⟩
  else if value = 100 then ⟨0, 0, 255, 128⟩
  else ⟨0, 0, 0, 0⟩

/-- The `"/one_way_map"` palette branch of `updateTexture`: eight
AND-with-mask equality tests each OR one bit into a colour channel, and the
alpha is dropped to 0 exactly for the byte 255. -/
def paletteOneWay (value : ℕ) : ColorN :=
  let red :=
    (if value &&& 0xC7 = 0xC7 then 0x80 else 0) |||
    (if value &&& 0x1F = 0x1F then 0x20 else 0) |||
    (if value &&& 0xF1 = 0xF1 then 0x40 else 0)
  let green :=
    (if value &&& 0x8F = 0x8F then 0x40 else 0) |||
    (if value &&& 0x7C = 0x7C then 0x20 else 0) |||
    (if value &&& 0xF8 = 0xF8 then 0x80 else 0)
  let blue :=
    (if value &&& 0x3E = 0x3E then 0x80 else 0) |||
    (if value &&& 0xE3 = 0xE3 then 0x40 else 0)
  let alpha := if value = 255 then 0 else 128
  ⟨red, green, blue, alpha⟩

/-- The default palette branch of `updateTexture`: a fixed lookup on the
exact byte values 0, 224, 192, 96, 95. -/
def paletteDefault (value : ℕ) : ColorN :=
  if value = 0 then ⟨255, 255, 255, 128⟩
  else if value = 224 then ⟨0, 0, 0, 128⟩
  else if value = 192 then ⟨255, 168, 168, 128⟩
  else if value = 96 then ⟨128, 128, 128, 128⟩
  else if value = 95 then ⟨255, 165, 0, 128⟩
  else ⟨0, 0, 0, 0⟩

/-- Palette selection in `updateTexture` is keyed on the topic name. -/
def cellColor (topic : String) (value : ℕ) : ColorN :=
  if topic = "/traffic_map" then paletteTraffic value
  else if topic = "/one_way_map" then paletteOneWay value
  else paletteDefault value

/-- One iteration of the `updateTexture` loop: write the four RGBA bytes of
cell `i` at offset `i * 4` (out-of-range writes are dropped, and
`Uint8ClampedArray` clamps stores to 255). -/
def writeCell (rgba : List ℕ) (i : ℕ) (c : ColorN) : List ℕ :=
  ((((rgba.set (4 * i) (min c.r 255)).set (4 * i + 1) (min c.g 255)).set
      (4 * i + 2) (min c.b 255)).set (4 * i + 3) (min c.a 255))

/-- `updateTexture`: repaint the RGBA buffer in place from the grid's cell
data under the topic-keyed palette. -/
def updateTexture (topic : String) (rgba : List ℕ) (grid : OccGrid) : List ℕ :=
  (List.range (grid.info.width * grid.info.height)).foldl
    (fun buf i => writeCell buf i (cellColor topic (cellByte grid.data i))) rgba

/-! ### Occupancy grids: PNG dispatch and the per-update pipeline -/

/-- The leading-bytes test of `_updateOccupancyGridRenderable`: the four
comparisons `occupancyGrid.data[k] == png_signature[k]` (an out-of-range read
is `undefined` and compares unequal to every signature byte). -/
def hasPngSignature (data : List ℤ) : Bool :=
  data[0]? == some (-119) && data[1]? == some 80 &&
  data[2]? == some 78 && data[3]? == some 71

/-- Storing a decoded pixel byte into an `Int8Array` slot: reduce mod 256
and reinterpret as a signed 8-bit value. -/
def toInt8 (b : ℕ) : ℤ :=
  if b % 256 < 128 then (b % 256 : ℤ) else (b % 256 : ℤ) - 256

/-- The PNG format dispatch of `_updateOccupancyGridRenderable`: when the
payload opens with the PNG signature, decode it (`PNG.load(...).decodePixels()`
is the external decoder `png`, a parameter of the embedding) and reinterpret
the decoded pixel bytes as signed cell values; otherwise keep the raw data. -/
def dispatchData (png : List ℤ → List ℕ) (data : List ℤ) : List ℤ :=
  if hasPngSignature data then (png data).map toInt8 else data

def INVALID_OCCUPANCY_GRID : String := "INVALID_OCCUPANCY_GRID"

/-- The exact diagnostic text built by `_updateOccupancyGridRenderable` on a
dimension mismatch. -/
def invalidGridMessage (len w h : ℕ) : String :=
  "OccupancyGrid data length (" ++ toString len ++
    ") is not equal to width " ++ toString w ++ " * height " ++ toString h

/-- An error surfaced through `renderer.settings.errors.addToTopic`. -/
structure TopicError where
  topic : String
  errorId : String
  message : String
deriving DecidableEq

structure UpdateResult where
  texture : Texture
  disposedOld : Bool
  error : Option TopicError
  scale : Option (ℚ × ℚ × ℚ)
deriving DecidableEq

/-- `_updateOccupancyGridRenderable`: PNG dispatch, dimension check (with the
fail-soft early return), texture recreation on a dimension change, and the
in-place repaint.  `png` is the external PNG pixel decoder. -/
def updateOccupancyGridRenderable (png : List ℤ → List ℕ) (topic : String)
    (tex : Texture) (grid : OccGrid) : UpdateResult :=
  let data := dispatchData png grid.data
  let grid2 : OccGrid := { grid with data := data }
  let size := grid2.info.width * grid2.info.height
  if data.length ≠ size then
    { texture := tex
      disposedOld := false
      error := some
        { topic := topic
          errorId := INVALID_OCCUPANCY_GRID
          message := invalidGridMessage data.length grid2.info.width grid2.info.height }
      scale := none }
  else
    let tex2 :=
      if grid2.info.width ≠ tex.width ∨ grid2.info.height ≠ tex.height then
        createTexture grid2 (tex.gen + 1)
      else tex
    { texture := { tex2 with image := updateTexture topic tex2.image grid2 }
      disposedOld := decide (grid2.info.width ≠ tex.width ∨ grid2.info.height ≠ tex.height)
      error := none
      scale := some (grid2.info.resolution * grid2.info.width,
                     grid2.info.resolution * grid2.info.height, 1) }

/-! ### Occupancy grids: normalization -/

/-- A raw (partially absent) occupancy-grid message as delivered to
`normalizeOccupancyGrid`. -/
structure GridMsgOpt where
  stamp : Option ℤ
  frame_id : Option String
  mapLoadTime : Option ℤ
  resolution : Option ℚ
  width : Option ℕ
  height : Option ℕ
  origin : Option PoseQ
  data : Option (List ℤ)
deriving DecidableEq

/-- Modelled from the spec: `normalizeTime` (from `../normalizeMessages`,
outside `src/`) yields time zero for a missing stamp. -/
def normalizeTime (t : Option ℤ) : ℤ := t.getD 0

/-- Modelled from the spec: `normalizeHeader` (outside `src/`) defaults the
stamp to zero and the frame id to the empty string. -/
def normalizeHeader (stamp : Option ℤ) (fid : Option String) : HeaderQ :=
  ⟨normalizeTime stamp, fid.getD ""⟩

/-- Modelled from the spec: `normalizePose` (outside `src/`) yields the
identity pose for a missing pose. -/
def normalizePoseQ (p : Option PoseQ) : PoseQ :=
  p.getD { position := ⟨0, 0, 0⟩, orientation := ⟨0, 0, 0, 1⟩ }

/-- Modelled from the spec: `normalizeInt8Array` (outside `src/`) yields an
empty signed-byte array for a missing payload ("Unknown/zero-length grid —
treated as an empty grid"), and the payload's bytes otherwise. -/
def normalizeInt8Array (d : Option (List ℤ)) : List ℤ := d.getD []

/-- `normalizeOccupancyGrid`: fill in every missing field with its default
(zero resolution and dimensions, identity origin, empty data). -/
def normalizeOccupancyGrid (m : GridMsgOpt) : OccGrid :=
  { header := normalizeHeader m.stamp m.frame_id
    info :=
      { mapLoadTime := normalizeTime m.mapLoadTime
        resolution := m.resolution.getD 0
        width := m.width.getD 0
        height := m.height.getD 0
        origin := normalizePoseQ m.origin }
    data := normalizeInt8Array m.data }

/-! ### Occupancy grids: the vendor costmap adapter (`MirToRos`) -/

structure CostmapMsg where
  width : ℕ
  height : ℕ
  offsetX : ℚ
  offsetY : ℚ
  resolution : ℚ
  data : List ℤ
deriving DecidableEq

/-- The value computed for cell `k` by the `MirToRos` loop body, with
JavaScript semantics: `index = k / 4` is *float* division, so the packed
byte is actually read only when `4 ∣ k` (otherwise `data[index]` is
`undefined`, which `>>` coerces to `0`); `value >> offset` on a signed value
is arithmetic shift (floor division) and `& 3` keeps the low two bits
(Euclidean remainder). -/
def mirCellValue (data : List ℤ) (k : ℕ) : ℤ :=
  let off := 6 - (k % 4) * 2
  let value : ℤ := if k % 4 = 0 then data.getD (k / 4) 0 else 0
  (Int.fdiv value (2 ^ off)).emod 4

/-- The index pairs visited by the `MirToRos` double loop, in order: `y`
ranges over `width` and `x` over `height`. -/
def mirLoopPairs (w h : ℕ) : List (ℕ × ℕ) :=
  (List.range w).flatMap (fun y => (List.range h).map (fun x => (y, x)))

/-- The `occupancy_grid_data` buffer built by `MirToRos`: allocated with the
*packed* input's length (`new Int8Array(messageEvent.message.data?.length!)`),
then written at cell index `width * y + x` for each visited pair (writes past
the end of the `Int8Array` are dropped). -/
def mirToRosData (msg : CostmapMsg) : List ℤ :=
  (mirLoopPairs msg.width msg.height).foldl
    (fun out p =>
      let k := msg.width * p.1 + p.2
      out.set k (mirCellValue msg.data k))
    (List.replicate msg.data.length 0)

/-- `MirToRos`: unpack the vendor costmap into a canonical grid, carrying
over width, height and resolution, with the origin at
`(offset_x, offset_y, 0)` and identity orientation. -/
def MirToRos (msg : CostmapMsg) : OccGrid :=
  { header := ⟨0, ""⟩
    info :=
      { mapLoadTime := 0
        resolution := msg.resolution
        width := msg.width
        height := msg.height
        origin :=
          { position := ⟨msg.offsetX, msg.offsetY, 0⟩
            orientation := ⟨0, 0, 0, 1⟩ } }
    data := mirToRosData msg }

/-- Follows the claim's words, for comparison with `MirToRos`: every cell
`k` of the `width*height` output takes the 2-bit field of packed byte
`k / 4` (integer byte index) at bit offset `6 - (k % 4) * 2`. -/
def mirCostmapSpecData (msg : CostmapMsg) : List ℤ :=
  (List.range (msg.width * msg.height)).map (fun k =>
    ((((cellByte msg.data (k / 4)) >>> (6 - (k % 4) * 2)) &&& 3 : ℕ) : ℤ))

/-! ### Pose arrays: canonical message and gradient colours (PoseArrays file) -/

structure PoseArrayQ where
  header : HeaderQ
  poses : List PoseQ
deriving DecidableEq

/-- JavaScript division of two non-negative integers as used for the
gradient parameter `t = i / (count - 1)`: division by zero with a zero
numerator is `NaN`, modelled as `none`.  (In the source this is only ever
evaluated with `i ≤ d`, so the `Infinity` case is unreachable.) -/
def jsDiv (i d : ℕ) : Option ℚ :=
  if d = 0 then none else some ((i : ℚ) / (d : ℚ))

/-- Modelled from the spec: `rgbaGradient` (from `../color`, outside `src/`)
is the componentwise linear interpolation between the gradient's start and
end colours. -/
def rgbaGradient (a b : ColorQ) (t : ℚ) : ColorQ :=
  { r := a.r + (b.r - a.r) * t
    g := a.g + (b.g - a.g) * t
    b := a.b + (b.b - a.b) * t
    a := a.a + (b.a - a.a) * t }

/-- The per-child colour computed by `createArrowMarkerFromIndex` and by the
`createLineStripMarker` loop: the gradient at `t = i / (count - 1)`.  A `NaN`
parameter (`count = 1`, giving `t = 0 / 0`) makes every interpolated
component `NaN`, so the whole colour is `none`. -/
def childColor (cs ce : ColorQ) (i count : ℕ) : Option ColorQ :=
  (jsDiv i (count - 1)).map (rgbaGradient cs ce)

/-- Modelled from the spec: `createArrowMarker` (from `./Poses`, outside
`src/`) builds an arrow marker carrying the given scale and colour. -/
structure ArrowMarker where
  scale : ℚ × ℚ × ℚ
  color : Option ColorQ
deriving DecidableEq

/-- The marker handed to arrow `i` of a `count`-pose array in arrow mode. -/
def arrowMarkerFromIndex (arrowScale : ℚ × ℚ × ℚ) (cs ce : ColorQ)
    (i count : ℕ) : ArrowMarker :=
  { scale := arrowScale, color := childColor cs ce i count }

/-- The fixed marker used for every trolley arrow: scale
`[trolley_length, 0.025, 0.025]`, opaque blue. -/
def trolleyMarker (len : ℚ) : ArrowMarker :=
  { scale := (len, 1 / 40, 1 / 40), color := some ⟨0, 0, 1, 1⟩ }

/-- The transform assigned to a pooled child.  `direct` is `setObjectPose`;
`headingAboutZ` is `setObjectPoseTrolley`, which orients the child about the
z axis by `robot_angle + trolley_angle + π` (`none` stands for the `NaN`
heading produced when either per-index angle array is read out of range). -/
inductive ChildPose
  | unset
  | direct (p : Vec3Q) (q : QuatQ)
  | headingAboutZ (p : Vec3Q) (angle : Option ℚ)
deriving DecidableEq

/-- A pooled `Axis` child: `id` models object identity (it is never changed
by an update-in-place), `visible` the THREE visibility flag, `scale` the
uniform axis scale. -/
structure Axis where
  id : ℕ
  visible : Bool
  scale : ℚ
  pose : ChildPose
deriving DecidableEq

/-- A pooled `RenderableArrow` child (used both for the arrow pool and the
trolley-arrow pool). -/
structure Arrow where
  id : ℕ
  visible : Bool
  marker : ArrowMarker
  pose : ChildPose
deriving DecidableEq

/-! ### Pose arrays: the shared pool-sync shape -/

/-- Map a function receiving the running index over a list, starting the
index at `i`. -/
def mapWithIndexFrom (g : ℕ → α → α) : ℕ → List α → List α
  | _, [] => []
  | i, a :: l => g i a :: mapWithIndexFrom g (i + 1) l

/-- The shared three-phase shape of `_createAxesToMatchPoses`,
`_createArrowsToMatchPoses` and `_createTrolleyArrowsToMatchPoses`:
update the children whose index is below the target count in place, append
newly constructed children up to the target count, and mark the surplus
children invisible (they stay in the pool). -/
def syncPool (pool : List α) (count : ℕ) (upd : ℕ → α → α) (mk : ℕ → α)
    (hide : α → α) : List α :=
  let updated := mapWithIndexFrom (fun i a => if i < count then upd i a else a) 0 pool
  let grown := updated ++ (List.range (count - pool.length)).map (fun j => mk (pool.length + j))
  mapWithIndexFrom (fun i a => if count ≤ i then hide a else a) 0 grown

/-- `_createAxesToMatchPoses` (pool part): existing axes below the pose
count are marked visible and rescaled in place; new axes (fresh ids from
`fresh`) are created at the given scale; surplus axes are hidden. -/
def syncAxes (pool : List Axis) (count : ℕ) (scale : ℚ) (fresh : ℕ) : List Axis :=
  syncPool pool count
    (fun _ a => { a with visible := true, scale := scale })
    (fun i => { id := fresh + (i - pool.length), visible := true, scale := scale,
                pose := ChildPose.unset })
    (fun a => { a with visible := false })

/-- `_createArrowsToMatchPoses` (pool part): existing arrows below the pose
count get the index-coloured marker in place; new arrows are created with
that marker; surplus arrows are hidden. -/
def syncArrows (pool : List Arrow) (count : ℕ) (arrowScale : ℚ × ℚ × ℚ)
    (cs ce : ColorQ) (fresh : ℕ) : List Arrow :=
  syncPool pool count
    (fun i a => { a with visible := true,
                         marker := arrowMarkerFromIndex arrowScale cs ce i count })
    (fun i => { id := fresh + (i - pool.length), visible := true,
                marker := arrowMarkerFromIndex arrowScale cs ce i count,
                pose := ChildPose.unset })
    (fun a => { a with visible := false })

/-- `_createTrolleyArrowsToMatchPoses` (pool part). -/
def syncTrolley (pool : List Arrow) (count : ℕ) (len : ℚ) (fresh : ℕ) : List Arrow :=
  syncPool pool count
    (fun _ a => { a with visible := true, marker := trolleyMarker len })
    (fun i => { id := fresh + (i - pool.length), visible := true,
                marker := trolleyMarker len, pose := ChildPose.unset })
    (fun a => { a with visible := false })

/-- The visibility pattern a pool of `n` children should show when `count`
poses are live: exactly the indices below `count` are visible. -/
def visFlags (n count : ℕ) : List Bool :=
  (List.range n).map (fun i => decide (i < count))

/-! ### Pose arrays: line mode and the per-pose transform loops -/

/-- The per-vertex colour list built by the `createLineStripMarker` loop,
using the same `t = i / (count - 1)` parameter as arrow mode. -/
def lineGradientColors (cs ce : ColorQ) (count : ℕ) : List (Option ColorQ) :=
  (List.range count).map (fun i => childColor cs ce i count)

/-- The `LINE_STRIP` marker built by `createLineStripMarker` (constant
fields such as `ns`, `id` and the white base colour are omitted). -/
structure LineMarker where
  lineWidth : ℚ
  points : List Vec3Q
  colors : List (Option ColorQ)
deriving DecidableEq

def createLineStripMarker (msg : PoseArrayQ) (lineWidth : ℚ)
    (cs ce : ColorQ) : LineMarker :=
  { lineWidth := lineWidth
    points := msg.poses.map (·.position)
    colors := lineGradientColors cs ce msg.poses.length }

/-- The single `RenderableLineStrip` slot of a renderable. -/
structure LineObj where
  id : ℕ
  marker : LineMarker
deriving DecidableEq

/-- The axis-mode transform loop: `setObjectPose(axes[i], poses[i])` for
every live pose index. -/
def setAxisPoses (poses : List PoseQ) (pool : List Axis) : List Axis :=
  mapWithIndexFrom
    (fun i a => match poses[i]? with
      | some p => { a with pose := ChildPose.direct p.position p.orientation }
      | none => a) 0 pool

/-- The arrow-mode transform loop. -/
def setArrowPoses (poses : List PoseQ) (pool : List Arrow) : List Arrow :=
  mapWithIndexFrom
    (fun i a => match poses[i]? with
      | some p => { a with pose := ChildPose.direct p.position p.orientation }
      | none => a) 0 pool

/-- The trolley transform loop: `setObjectPoseTrolley` with the heading
`robot_angle[i]! + trolley_numbers[i]!` (plus the fixed π offset folded into
`headingAboutZ`); an out-of-range read of either angle array gives `NaN`. -/
def setTrolleyPoses (poses : List PoseQ) (trolleyNumbers robotAngle : List ℚ)
    (pool : List Arrow) : List Arrow :=
  mapWithIndexFrom
    (fun i a => match poses[i]? with
      | some p =>
        let heading : Option ℚ :=
          match robotAngle[i]?, trolleyNumbers[i]? with
          | some r, some t => some (r + t)
          | _, _ => none
        { a with pose := ChildPose.headingAboutZ p.position heading }
      | none => a) 0 pool

/-! ### Pose arrays: settings and the per-update state transition -/

inductive DisplayType
  | axis
  | arrow
  | line
deriving DecidableEq

/-- Modelled from the spec: `AXIS_LENGTH` (from `./Axis`, outside `src/`)
is the fixed default axis length; its numeric value is irrelevant to every
claim proved here. -/
def AXIS_LENGTH : ℚ := 1

/-- The resolved per-channel settings snapshot (`LayerSettingsPoseArray`);
the gradient is carried as the two parsed colours. -/
structure Settings where
  visible : Bool
  displayType : DisplayType
  axisScale : ℚ
  arrowScale : ℚ × ℚ × ℚ
  lineWidth : ℚ
  gradient : ColorQ × ColorQ
  trolley : Bool
deriving DecidableEq

/-- The `axisOrArrowSettingsChanged` test of `_updatePoseArrayRenderable`:
a by-value comparison of the relevant settings fields, forced to true when
both the arrow pool and the axis pool are empty. -/
def settingsChanged (next prev : Settings) (arrowsLen axesLen : ℕ) : Bool :=
  decide (next.trolley ≠ prev.trolley) ||
  decide (next.displayType ≠ prev.displayType) ||
  decide (next.axisScale ≠ prev.axisScale) ||
  decide (next.arrowScale ≠ prev.arrowScale) ||
  decide (next.gradient ≠ prev.gradient) ||
  (decide (arrowsLen = 0) && decide (axesLen = 0))

/-- The pool-owning part of a pose-array renderable's `userData`.  `nextId`
is the id supply for newly constructed children, modelling allocation. -/
structure PoseArrayState where
  settings : Settings
  lastMessage : PoseArrayQ
  axes : List Axis
  arrows : List Arrow
  trolleyArrows : List Arrow
  lineStrip : Option LineObj
  trolleyNumbers : List ℚ
  robotAngle : List ℚ
  trolleyLength : ℚ
  nextId : ℕ
deriving DecidableEq

/-- The `if (renderable.userData.settings.trolley) removeTrolley()` guard at
the head of the release block: it reads the *new* settings (they were stored
on the renderable just before), so the trolley pool is cleared exactly when
the new settings have the trolley enabled. -/
def clearTrolleyIfOn (st : PoseArrayState) : PoseArrayState :=
  if st.settings.trolley then { st with trolleyArrows := [] } else st

/-- The `switch (renderable.userData.settings.type)` of the release block:
clear the pools not used by the new display mode (line mode also creates or
refreshes the line strip here). -/
def releaseForType (st : PoseArrayState) (msg : PoseArrayQ) : PoseArrayState :=
  match st.settings.displayType with
  | DisplayType.axis => { st with arrows := [], lineStrip := none }
  | DisplayType.arrow => { st with axes := [], lineStrip := none }
  | DisplayType.line =>
    let marker := createLineStripMarker msg st.settings.lineWidth
      st.settings.gradient.1 st.settings.gradient.2
    let st2 : PoseArrayState := { st with arrows := [], axes := [] }
    match st2.lineStrip with
    | none => { st2 with lineStrip := some ⟨st2.nextId, marker⟩, nextId := st2.nextId + 1 }
    | some l => { st2 with lineStrip := some { l with marker := marker } }

/-- The release block run when `axisOrArrowSettingsChanged`. -/
def releasePools (st : PoseArrayState) (msg : PoseArrayQ) : PoseArrayState :=
  releaseForType (clearTrolleyIfOn st) msg

/-- The `if (settings.trolley)` block: sync the trolley pool to the pose
count and run the trolley transform loop. -/
def trolleySyncPhase (st : PoseArrayState) (msg : PoseArrayQ) : PoseArrayState :=
  if st.settings.trolley then
    let pool := syncTrolley st.trolleyArrows msg.poses.length st.trolleyLength st.nextId
    let pool := setTrolleyPoses msg.poses st.trolleyNumbers st.robotAngle pool
    { st with trolleyArrows := pool
              nextId := st.nextId + (msg.poses.length - st.trolleyArrows.length) }
  else st

/-- The `switch (settings.type)` block: sync the active mode's pool and run
its transform loop (line mode only refreshes an already existing strip). -/
def typeSyncPhase (st : PoseArrayState) (msg : PoseArrayQ) : PoseArrayState :=
  let cs := st.settings.gradient.1
  let ce := st.settings.gradient.2
  match st.settings.displayType with
  | DisplayType.axis =>
    let pool := syncAxes st.axes msg.poses.length
      (st.settings.axisScale * (1 / AXIS_LENGTH)) st.nextId
    { st with axes := setAxisPoses msg.poses pool
              nextId := st.nextId + (msg.poses.length - st.axes.length) }
  | DisplayType.arrow =>
    let pool := syncArrows st.arrows msg.poses.length st.settings.arrowScale cs ce st.nextId
    { st with arrows := setArrowPoses msg.poses pool
              nextId := st.nextId + (msg.poses.length - st.arrows.length) }
  | DisplayType.line =>
    match st.lineStrip with
    | some l =>
      let strip : LineObj := { l with marker := createLineStripMarker msg st.settings.lineWidth cs ce }
      { st with lineStrip := some strip }
    | none => st

/-- `_updatePoseArrayRenderable`: store the message and the new settings,
release pools when the settings comparison fires, then run the trolley sync
and the active mode's sync. -/
def updatePoseArrayRenderable (st : PoseArrayState) (msg : PoseArrayQ)
    (settings : Settings) : PoseArrayState :=
  let changed := settingsChanged settings st.settings st.arrows.length st.axes.length
  let st1 := { st with settings := settings, lastMessage := msg }
  let st2 := if changed then releasePools st1 msg else st1
  typeSyncPhase (trolleySyncPhase st2 msg) msg

/-! ### The vendor robot-state-path adapter (`normalizeMirPose`) -/

structure Vec3R where
  x : ℝ
  y : ℝ
  z : ℝ

structure QuatR where
  x : ℝ
  y : ℝ
  z : ℝ
  w : ℝ

structure PoseR where
  position : Vec3R
  orientation : QuatR

/-- One element of a vendor robot-state path; every numeric field may be
absent on the wire. -/
structure MirRobotState where
  pose_x : Option ℝ
  pose_y : Option ℝ
  pose_theta : Option ℝ
  velocity_x : Option ℝ
  velocity_theta : Option ℝ
  hook_angle : Option ℝ

structure EulerXYZ where
  x : ℝ
  y : ℝ
  z : ℝ

/-- The `THREE.Euler(x, y, z)` constructor: each argument passed as
`undefined` (or omitted) falls back to the default `0`. -/
def mkEuler (x y z : Option ℝ) : EulerXYZ :=
  ⟨x.getD 0, y.getD 0, z.getD 0⟩

/-- `THREE.Quaternion.setFromEuler` for the default `XYZ` rotation order,
written with the half-angle cosines and sines exactly as in the library. -/
noncomputable def quatFromEulerXYZ (ex ey ez : ℝ) : QuatR :=
  let c1 := Real.cos (ex / 2)
  let c2 := Real.cos (ey / 2)
  let c3 := Real.cos (ez / 2)
  let s1 := Real.sin (ex / 2)
  let s2 := Real.sin (ey / 2)
  let s3 := Real.sin (ez / 2)
  { x := s1 * c2 * c3 + c1 * s2 * s3
    y := c1 * s2 * c3 - s1 * c2 * s3
    z := c1 * c2 * s3 + s1 * s2 * c3
    w := c1 * c2 * c3 - s1 * s2 * s3 }

noncomputable def setFromEuler (e : EulerXYZ) : QuatR :=
  quatFromEulerXYZ e.x e.y e.z

/-- Modelled from the spec: `normalizePose undefined` (outside `src/`)
yields the identity pose. -/
def defaultPoseR : PoseR := ⟨⟨0, 0, 0⟩, ⟨0, 0, 0, 1⟩⟩

/-- `normalizeMirPose`: position is `(pose_x, pose_y, velocity_x)` and the
orientation is the quaternion of the Euler angles
`(-1 * (velocity_theta ?? 0), 0, pose_theta)` built through the
`THREE.Euler` constructor. -/
noncomputable def normalizeMirPose (p : Option MirRobotState) : PoseR :=
  match p with
  | none => defaultPoseR
  | some p =>
    let euler := mkEuler (some (-1 * p.velocity_theta.getD 0)) (some 0) p.pose_theta
    { position := ⟨p.pose_x.getD 0, p.pose_y.getD 0, p.velocity_x.getD 0⟩
      orientation := setFromEuler euler }

/-! ### Concrete instances used by witnesses and counterexamples -/

def idPoseQ : PoseQ := ⟨⟨0, 0, 0⟩, ⟨0, 0, 0, 1⟩⟩

/-- A trivial stand-in for the external PNG pixel decoder. -/
def pngNone : List ℤ → List ℕ := fun _ => []

/-- The scenario grid of the spec: `width = 4`, `height = 4`,
`data.length = 15`. -/
def grid4x4short : OccGrid :=
  { header := ⟨0, ""⟩
    info := ⟨0, 1, 4, 4, idPoseQ⟩
    data := List.replicate 15 0 }

def tex4x4 : Texture := ⟨0, 4, 4, List.replicate 64 0⟩

/-- The diagnostic the code emits for `grid4x4short`. -/
def cexMessage1 : String := invalidGridMessage 15 4 4

/-- A well-formed 2-by-2 grid together with a matching texture. -/
def grid2x2ok : OccGrid :=
  { header := ⟨0, ""⟩, info := ⟨0, 1, 2, 2, idPoseQ⟩, data := [0, 100, -1, 0] }

def tex2x2 : Texture := ⟨0, 2, 2, List.replicate 16 0⟩

/-- The failing costmap input: a square 2-by-2 grid whose single packed
byte is `0b11100100` (signed `-28`). -/
def mirCexMsg : CostmapMsg :=
  { width := 2, height := 2, offsetX := 3, offsetY := 5, resolution := 1,
    data := [-28] }

/-- The default gradient colours of the source file. -/
def gradStart : ColorQ := ⟨124 / 255, 107 / 255, 1, 1⟩

def gradEnd : ColorQ := ⟨124 / 255, 107 / 255, 1, 1 / 2⟩

def exSettingsBase : Settings :=
  { visible := true, displayType := DisplayType.axis, axisScale := 1,
    arrowScale := (1, 3 / 20, 3 / 20), lineWidth := 1 / 5,
    gradient := (gradStart, gradEnd), trolley := false }

/-- The surviving trolley arrow of the C5 counterexample. -/
def c5TrolleyArrow : Arrow := ⟨5, true, trolleyMarker 1, ChildPose.unset⟩

def c5Msg : PoseArrayQ := ⟨⟨0, "map"⟩, [idPoseQ]⟩

/-- A state whose active settings have the trolley attachment enabled and a
built trolley pool. -/
def c5State : PoseArrayState :=
  { settings := { exSettingsBase with trolley := true }
    lastMessage := c5Msg
    axes := [⟨0, true, 1, ChildPose.unset⟩]
    arrows := []
    trolleyArrows := [c5TrolleyArrow]
    lineStrip := none
    trolleyNumbers := [0]
    robotAngle := [0]
    trolleyLength := 1
    nextId := 10 }

/-- The C5 witness state: axis mode, no trolley, a built axis pool. -/
def c5wState : PoseArrayState :=
  { settings := exSettingsBase
    lastMessage := c5Msg
    axes := [⟨0, true, 1, ChildPose.unset⟩]
    arrows := []
    trolleyArrows := []
    lineStrip := none
    trolleyNumbers := []
    robotAngle := []
    trolleyLength := 0
    nextId := 3 }

def c5wSettings : Settings := { exSettingsBase with displayType := DisplayType.arrow }

/-- A concrete axis pool of three children for the C2 witness. -/
def w2Axes : List Axis :=
  [⟨0, true, 1, ChildPose.unset⟩, ⟨1, false, 1, ChildPose.unset⟩,
   ⟨2, true, 1, ChildPose.unset⟩]

/-- A concrete arrow pool of two children for the C2 witness. -/
def w2Arrows : List Arrow :=
  [⟨7, false, trolleyMarker 1, ChildPose.unset⟩,
   ⟨8, true, trolleyMarker 1, ChildPose.unset⟩]

/-- A grid message with every field absent. -/
def emptyGridMsg : GridMsgOpt :=
  { stamp := none, frame_id := none, mapLoadTime := none, resolution := none,
    width := none, height := none, origin := none, data := none }

/-- The given needle occurs in the haystack string. -/
def strHasSub (hay needle : String) : Prop :=
  needle.data <:+: hay.data

instance (hay needle : String) : Decidable (strHasSub hay needle) :=
  List.decidableInfix needle.data hay.data

/-! ### Helper lemmas -/

theorem length_mapWithIndexFrom (g : ℕ → α → α) (i : ℕ) (l : List α) :
    (mapWithIndexFrom g i l).length = l.length := by
  induction l generalizing i with
  | nil => rfl
  | cons a l ih => simp [mapWithIndexFrom, ih]

theorem getElem?_mapWithIndexFrom (g : ℕ → α → α) (i j : ℕ) (l : List α) :
    (mapWithIndexFrom g i l)[j]? = (l[j]?).map (g (i + j)) := by
  induction l generalizing i j with
  | nil => simp [mapWithIndexFrom]
  | cons a l ih =>
    cases j with
    | zero => simp [mapWithIndexFrom]
    | succ j =>
      have heq : (i + 1) + j = i + (j + 1) := by omega
      simp only [mapWithIndexFrom, List.getElem?_cons_succ, ih (i + 1) j, heq]

theorem length_syncPool (pool : List α) (count : ℕ) (upd : ℕ → α → α)
    (mk : ℕ → α) (hide : α → α) :
    (syncPool pool count upd mk hide).length = max pool.length count := by
  simp only [syncPool, length_mapWithIndexFrom, List.length_append,
    List.length_map, List.length_range]
  omega

theorem getElem?_syncPool (pool : List α) (count : ℕ) (upd : ℕ → α → α)
    (mk : ℕ → α) (hide : α → α) (j : ℕ) :
    (syncPool pool count upd mk hide)[j]? =
      if j < count then
        (if j < pool.length then (pool[j]?).map (upd j) else some (mk j))
      else (pool[j]?).map hide := by
  unfold syncPool
  rw [getElem?_mapWithIndexFrom, Nat.zero_add, List.getElem?_append,
    length_mapWithIndexFrom]
  by_cases hjc : j < count <;> by_cases hjp : j < pool.length
  · simp [hjp, hjc, getElem?_mapWithIndexFrom, List.getElem?_eq_getElem hjp,
      Nat.not_le_of_lt hjc]
  · have hr : j - pool.length < count - pool.length := by omega
    have hj : pool.length + (j - pool.length) = j := by omega
    simp [hjp, hjc, List.getElem?_map, List.getElem?_range hr, hj,
      Nat.not_le_of_lt hjc]
  · simp [hjp, hjc, getElem?_mapWithIndexFrom, List.getElem?_eq_getElem hjp,
      Nat.le_of_not_lt hjc]
  · have h1 : ((List.range (count - pool.length)).map
        (fun j => mk (pool.length + j)))[j - pool.length]? = none := by
      apply List.getElem?_eq_none
      simp only [List.length_map, List.length_range]
      omega
    simp [hjp, hjc, h1, List.getElem?_eq_none (Nat.le_of_not_lt hjp)]

theorem count_true_visFlags (n c : ℕ) : (visFlags n c).count true = min c n := by
  induction n with
  | zero => simp [visFlags]
  | succ n ih =>
    have hsplit : visFlags (n + 1) c = visFlags n c ++ [decide (n < c)] := by
      simp [visFlags, List.range_succ]
    rw [hsplit, List.count_append, ih]
    by_cases h : n < c
    · rw [decide_eq_true h]
      have h1 : List.count true [true] = 1 := rfl
      rw [h1]; omega
    · rw [decide_eq_false h]
      have h0 : List.count true [false] = 0 := rfl
      rw [h0]; omega

theorem length_writeCell (rgba : List ℕ) (i : ℕ) (c : ColorN) :
    (writeCell rgba i c).length = rgba.length := by
  simp [writeCell]

theorem length_updateTexture (topic : String) (rgba : List ℕ) (grid : OccGrid) :
    (updateTexture topic rgba grid).length = rgba.length := by
  unfold updateTexture
  generalize List.range (grid.info.width * grid.info.height) = idxs
  induction idxs generalizing rgba with
  | nil => rfl
  | cons k ks ih => simp [List.foldl_cons, ih, length_writeCell]

theorem strHasSub_of_parts (p needle q : String) :
    strHasSub (p ++ needle ++ q) needle := by
  refine ⟨p.data, q.data, ?_⟩
  simp [String.data_append]

theorem invalidGridMessage_names_len (len w h : ℕ) :
    strHasSub (invalidGridMessage len w h) (toString len) := by
  have := strHasSub_of_parts "OccupancyGrid data length (" (toString len)
    (") is not equal to width " ++ toString w ++ " * height " ++ toString h)
  simpa [invalidGridMessage, strHasSub, String.data_append, List.append_assoc] using this

theorem invalidGridMessage_names_w (len w h : ℕ) :
    strHasSub (invalidGridMessage len w h) (toString w) := by
  have := strHasSub_of_parts
    ("OccupancyGrid data length (" ++ toString len ++ ") is not equal to width ")
    (toString w) (" * height " ++ toString h)
  simpa [invalidGridMessage, strHasSub, String.data_append, List.append_assoc] using this

theorem invalidGridMessage_names_h (len w h : ℕ) :
    strHasSub (invalidGridMessage len w h) (toString h) := by
  have := strHasSub_of_parts
    ("OccupancyGrid data length (" ++ toString len ++ ") is not equal to width " ++
      toString w ++ " * height ") (toString h) ""
  simpa [invalidGridMessage, strHasSub, String.data_append, List.append_assoc] using this

theorem map_visible_syncPool (pool : List α) (count : ℕ) (upd : ℕ → α → α)
    (mk : ℕ → α) (hide : α → α) (vis : α → Bool)
    (hupd : ∀ i a, vis (upd i a) = true) (hmk : ∀ i, vis (mk i) = true)
    (hhide : ∀ a, vis (hide a) = false) :
    (syncPool pool count upd mk hide).map vis = visFlags (max pool.length count) count := by
  apply List.ext_getElem?
  intro j
  rw [List.getElem?_map, getElem?_syncPool]
  unfold visFlags
  rw [List.getElem?_map]
  by_cases hj : j < max pool.length count
  · rw [List.getElem?_range hj]
    by_cases hjc : j < count
    · by_cases hjp : j < pool.length
      · rw [List.getElem?_eq_getElem hjp]
        simp [hjc, hjp, hupd]
      · simp [hjc, hjp, hmk]
    · have hjp : j < pool.length := by omega
      rw [List.getElem?_eq_getElem hjp]
      simp [hjc, hhide]
  · have hjc : ¬ j < count := by omega
    have h1 : pool[j]? = none := List.getElem?_eq_none (by omega)
    have h2 : (List.range (max pool.length count))[j]? = none := by
      apply List.getElem?_eq_none
      simp only [List.length_range]
      omega
    simp [hjc, h1, h2]

theorem id_syncPool (pool : List α) (count : ℕ) (upd : ℕ → α → α)
    (mk : ℕ → α) (hide : α → α) (idf : α → ℕ)
    (hupd : ∀ i a, idf (upd i a) = idf a) (j : ℕ)
    (hj : j < min pool.length count) :
    ((syncPool pool count upd mk hide)[j]?).map idf = (pool[j]?).map idf := by
  rw [getElem?_syncPool]
  have hjc : j < count := by omega
  have hjp : j < pool.length := by omega
  rw [List.getElem?_eq_getElem hjp]
  simp [hjc, hjp, hupd]

theorem clearTrolleyIfOn_settings (st : PoseArrayState) :
    (clearTrolleyIfOn st).settings = st.settings := by
  unfold clearTrolleyIfOn
  split <;> rfl

theorem clearTrolleyIfOn_axes (st : PoseArrayState) :
    (clearTrolleyIfOn st).axes = st.axes := by
  unfold clearTrolleyIfOn
  split <;> rfl

theorem clearTrolleyIfOn_arrows (st : PoseArrayState) :
    (clearTrolleyIfOn st).arrows = st.arrows := by
  unfold clearTrolleyIfOn
  split <;> rfl

theorem clearTrolleyIfOn_lineStrip (st : PoseArrayState) :
    (clearTrolleyIfOn st).lineStrip = st.lineStrip := by
  unfold clearTrolleyIfOn
  split <;> rfl

theorem clearTrolleyIfOn_of_on (st : PoseArrayState) (h : st.settings.trolley = true) :
    (clearTrolleyIfOn st).trolleyArrows = [] := by
  unfold clearTrolleyIfOn
  rw [h]
  rfl

theorem clearTrolleyIfOn_of_off (st : PoseArrayState) (h : st.settings.trolley = false) :
    clearTrolleyIfOn st = st := by
  unfold clearTrolleyIfOn
  rw [h]
  rfl

theorem releaseForType_trolleyArrows (st : PoseArrayState) (msg : PoseArrayQ) :
    (releaseForType st msg).trolleyArrows = st.trolleyArrows := by
  unfold releaseForType
  cases hd : st.settings.displayType
  · rfl
  · rfl
  · cases hl : st.lineStrip <;> rfl

theorem releaseForType_settings (st : PoseArrayState) (msg : PoseArrayQ) :
    (releaseForType st msg).settings = st.settings := by
  unfold releaseForType
  cases hd : st.settings.displayType
  · rfl
  · rfl
  · cases hl : st.lineStrip <;> rfl

theorem trolleySyncPhase_axes (st : PoseArrayState) (msg : PoseArrayQ) :
    (trolleySyncPhase st msg).axes = st.axes := by
  unfold trolleySyncPhase
  split <;> rfl

theorem trolleySyncPhase_arrows (st : PoseArrayState) (msg : PoseArrayQ) :
    (trolleySyncPhase st msg).arrows = st.arrows := by
  unfold trolleySyncPhase
  split <;> rfl

theorem trolleySyncPhase_lineStrip (st : PoseArrayState) (msg : PoseArrayQ) :
    (trolleySyncPhase st msg).lineStrip = st.lineStrip := by
  unfold trolleySyncPhase
  split <;> rfl

theorem trolleySyncPhase_settings (st : PoseArrayState) (msg : PoseArrayQ) :
    (trolleySyncPhase st msg).settings = st.settings := by
  unfold trolleySyncPhase
  split <;> rfl

theorem trolleySyncPhase_of_off (st : PoseArrayState) (msg : PoseArrayQ)
    (h : st.settings.trolley = false) : trolleySyncPhase st msg = st := by
  unfold trolleySyncPhase
  rw [h]
  rfl

theorem typeSyncPhase_trolleyArrows (st : PoseArrayState) (msg : PoseArrayQ) :
    (typeSyncPhase st msg).trolleyArrows = st.trolleyArrows := by
  unfold typeSyncPhase
  cases hd : st.settings.displayType
  · rfl
  · rfl
  · cases hl : st.lineStrip <;> rfl

theorem typeSyncPhase_settings (st : PoseArrayState) (msg : PoseArrayQ) :
    (typeSyncPhase st msg).settings = st.settings := by
  unfold typeSyncPhase
  cases hd : st.settings.displayType
  · rfl
  · rfl
  · cases hl : st.lineStrip <;> rfl

theorem settingsChanged_of (next prev : Settings) (al xl : ℕ)
    (h : next.displayType ≠ prev.displayType ∨ next.trolley ≠ prev.trolley) :
    settingsChanged next prev al xl = true := by
  unfold settingsChanged
  rcases h with h | h <;> simp [h]

theorem hasPngSignature_iff (d : List ℤ) :
    hasPngSignature d = true ↔ d.take 4 = [-119, 80, 78, 71] ∧ 4 ≤ d.length := by
  match d with
  | [] => simp [hasPngSignature]
  | [a] => simp [hasPngSignature]
  | [a, b] => simp [hasPngSignature]
  | [a, b, c] => simp [hasPngSignature]
  | a :: b :: c :: e :: rest =>
    simp only [hasPngSignature, Bool.and_eq_true, beq_iff_eq,
      List.getElem?_cons_zero, List.getElem?_cons_succ, List.take_succ_cons,
      List.take_zero, List.length_cons, Option.some.injEq, List.cons.injEq,
      and_true, List.take_nil]
    constructor
    · rintro ⟨⟨⟨h1, h2⟩, h3⟩, h4⟩
      exact ⟨⟨h1, h2, h3, h4⟩, by omega⟩
    · rintro ⟨⟨h1, h2, h3, h4⟩, -⟩
      exact ⟨⟨⟨h1, h2⟩, h3⟩, h4⟩

theorem update_reject (png : List ℤ → List ℕ) (topic : String) (tex : Texture)
    (grid : OccGrid)
    (h : (dispatchData png grid.data).length ≠ grid.info.width * grid.info.height) :
    updateOccupancyGridRenderable png topic tex grid =
      { texture := tex, disposedOld := false,
        error := some ⟨topic, INVALID_OCCUPANCY_GRID,
          invalidGridMessage (dispatchData png grid.data).length
            grid.info.width grid.info.height⟩,
        scale := none } := by
  simp only [updateOccupancyGridRenderable]
  rw [if_pos h]

theorem update_accept (png : List ℤ → List ℕ) (topic : String) (tex : Texture)
    (grid : OccGrid)
    (h : (dispatchData png grid.data).length = grid.info.width * grid.info.height) :
    updateOccupancyGridRenderable png topic tex grid =
      { texture :=
          { gen := if grid.info.width ≠ tex.width ∨ grid.info.height ≠ tex.height
              then tex.gen + 1 else tex.gen
            width := if grid.info.width ≠ tex.width ∨ grid.info.height ≠ tex.height
              then grid.info.width else tex.width
            height := if grid.info.width ≠ tex.width ∨ grid.info.height ≠ tex.height
              then grid.info.height else tex.height
            image := updateTexture topic
              (if grid.info.width ≠ tex.width ∨ grid.info.height ≠ tex.height
                then List.replicate (grid.info.width * grid.info.height * 4) 0
                else tex.image)
              { grid with data := dispatchData png grid.data } }
        disposedOld := decide (grid.info.width ≠ tex.width ∨ grid.info.height ≠ tex.height)
        error := none
        scale := some (grid.info.resolution * (grid.info.width : ℚ),
          grid.info.resolution * (grid.info.height : ℚ), 1) } := by
  simp only [updateOccupancyGridRenderable]
  rw [if_neg (by simp [h])]
  by_cases hd : grid.info.width ≠ tex.width ∨ grid.info.height ≠ tex.height
  · simp [hd, createTexture]
  · simp [hd]

theorem update_error_none_iff (png : List ℤ → List ℕ) (topic : String)
    (tex : Texture) (grid : OccGrid) :
    (updateOccupancyGridRenderable png topic tex grid).error = none ↔
      (dispatchData png grid.data).length = grid.info.width * grid.info.height := by
  by_cases h : (dispatchData png grid.data).length = grid.info.width * grid.info.height
  · rw [update_accept png topic tex grid h]
    simpa using h
  · rw [update_reject png topic tex grid h]
    simpa using h

/-! ### Claim theorems -/

/-- C1 (counterexample): for the spec scenario `width = 4, height = 4,
`data.length = 15`, the update is rejected and a diagnostic is emitted, but
the diagnostic does not name the expected length 16 — it spells out the
width and the height instead — so the claim as stated fails. -/
theorem C1_counterexample :
    (updateOccupancyGridRenderable pngNone "/map" tex4x4 grid4x4short).error =
      some ⟨"/map", INVALID_OCCUPANCY_GRID, cexMessage1⟩ ∧
    ¬ strHasSub cexMessage1 "16" := by
  constructor
  · decide
  · decide

/-- C1 (amended): a grid update is accepted exactly when the (dispatched)
data length equals `width * height`; on a mismatch the update returns before
any texture write with the texture unchanged, and emits a per-channel
diagnostic naming the channel, the actual length, and the width and the
height (whose product is the expected length). -/
theorem C1_grid_dimension_check (png : List ℤ → List ℕ) (topic : String)
    (tex : Texture) (grid : OccGrid) :
    ((updateOccupancyGridRenderable png topic tex grid).error = none ↔
      (dispatchData png grid.data).length = grid.info.width * grid.info.height) ∧
    ((updateOccupancyGridRenderable png topic tex grid).error = none ∨
      ((updateOccupancyGridRenderable png topic tex grid).error =
          some ⟨topic, INVALID_OCCUPANCY_GRID,
            invalidGridMessage (dispatchData png grid.data).length
              grid.info.width grid.info.height⟩ ∧
        (updateOccupancyGridRenderable png topic tex grid).texture = tex)) ∧
    strHasSub (invalidGridMessage (dispatchData png grid.data).length
        grid.info.width grid.info.height)
      (toString (dispatchData png grid.data).length) ∧
    strHasSub (invalidGridMessage (dispatchData png grid.data).length
        grid.info.width grid.info.height) (toString grid.info.width) ∧
    strHasSub (invalidGridMessage (dispatchData png grid.data).length
        grid.info.width grid.info.height) (toString grid.info.height) := by
  refine ⟨update_error_none_iff png topic tex grid, ?_,
    invalidGridMessage_names_len _ _ _, invalidGridMessage_names_w _ _ _,
    invalidGridMessage_names_h _ _ _⟩
  by_cases hlen :
      (dispatchData png grid.data).length = grid.info.width * grid.info.height
  · exact Or.inl ((update_error_none_iff png topic tex grid).mpr hlen)
  · right
    rw [update_reject png topic tex grid hlen]
    exact ⟨rfl, rfl⟩

/-- C3 (evaluation at the failing input): on a square 2-by-2 costmap with
the single packed byte `0b11100100`, the adapter carries the metadata over
correctly but produces the cell buffer `[3]` instead of the four claimed
cells `[3, 2, 1, 0]`: the output is allocated with the packed input's
length, and every cell index not divisible by 4 reads the packed stream at
a fractional JavaScript index (undefined, coerced to 0). -/
theorem C3_costmap_unpack_divergence :
    (MirToRos mirCexMsg).data = [3] ∧
    mirCostmapSpecData mirCexMsg = [3, 2, 1, 0] ∧
    (MirToRos mirCexMsg).data ≠ mirCostmapSpecData mirCexMsg ∧
    (MirToRos mirCexMsg).info.width = 2 ∧
    (MirToRos mirCexMsg).info.height = 2 ∧
    (MirToRos mirCexMsg).info.resolution = 1 ∧
    (MirToRos mirCexMsg).info.origin.position = ⟨3, 5, 0⟩ ∧
    (MirToRos mirCexMsg).info.origin.orientation = ⟨0, 0, 0, 1⟩ := by
  refine ⟨?_, ?_, ?_, ?_, ?_, ?_, ?_, ?_⟩ <;> decide

/-- C6: under the "/one_way_map" palette, for every 8-bit cell value the
eight AND-with-mask equality tests independently OR their red, green or
blue bit into the output (no other bits are ever set), and the alpha is 0
exactly when the raw value is 255 and the fixed translucency 128 otherwise. -/
theorem C6_one_way_palette :
    ∀ v : Fin 256,
      cellColor "/one_way_map" v.val = paletteOneWay v.val ∧
      (paletteOneWay v.val).a = (if v.val = 255 then 0 else 128) ∧
      ((paletteOneWay v.val).a = 0 ↔ v.val = 255) ∧
      ((paletteOneWay v.val).r.testBit 7 ↔ v.val &&& 0xC7 = 0xC7) ∧
      ((paletteOneWay v.val).r.testBit 5 ↔ v.val &&& 0x1F = 0x1F) ∧
      ((paletteOneWay v.val).r.testBit 6 ↔ v.val &&& 0xF1 = 0xF1) ∧
      ((paletteOneWay v.val).g.testBit 6 ↔ v.val &&& 0x8F = 0x8F) ∧
      ((paletteOneWay v.val).g.testBit 5 ↔ v.val &&& 0x7C = 0x7C) ∧
      ((paletteOneWay v.val).g.testBit 7 ↔ v.val &&& 0xF8 = 0xF8) ∧
      ((paletteOneWay v.val).b.testBit 7 ↔ v.val &&& 0x3E = 0x3E) ∧
      ((paletteOneWay v.val).b.testBit 6 ↔ v.val &&& 0xE3 = 0xE3) ∧
      (paletteOneWay v.val).r &&& 0x1F = 0 ∧
      (paletteOneWay v.val).g &&& 0x1F = 0 ∧
      (paletteOneWay v.val).b &&& 0x3F = 0 := by
  decide

/-- C7: the payload is decoded as a compressed image (and its decoded pixel
bytes reinterpreted as signed cell values replacing the data buffer) exactly
when its leading four bytes are the PNG signature `[-119, 80, 78, 71]`;
otherwise the raw data passes through unchanged; and the dimension check
runs on the dispatched (possibly replaced) data. -/
theorem C7_png_dispatch (png : List ℤ → List ℕ) (topic : String)
    (tex : Texture) (grid : OccGrid) :
    (hasPngSignature grid.data = true ↔
      grid.data.take 4 = [-119, 80, 78, 71] ∧ 4 ≤ grid.data.length) ∧
    dispatchData png grid.data =
      (if hasPngSignature grid.data then (png grid.data).map toInt8 else grid.data) ∧
    ((updateOccupancyGridRenderable png topic tex grid).error = none ↔
      (dispatchData png grid.data).length =
        grid.info.width * grid.info.height) := by
  exact ⟨hasPngSignature_iff _, rfl, update_error_none_iff png topic tex grid⟩

/-- C8: for every accepted grid update (given the invariant that the current
texture buffer has length `width * height * 4` for its own dimensions), the
resulting buffer has length exactly `width * height * 4` for the accepted
grid; when the dimensions changed the old texture is replaced by a freshly
created buffer (new generation, disposal flagged), otherwise the existing
buffer (same generation) is updated in place. -/
theorem C8_texture_buffer (png : List ℤ → List ℕ) (topic : String)
    (tex : Texture) (grid : OccGrid)
    (hinv : tex.image.length = tex.width * tex.height * 4)
    (hacc : (updateOccupancyGridRenderable png topic tex grid).error = none) :
    (updateOccupancyGridRenderable png topic tex grid).texture.image.length =
      grid.info.width * grid.info.height * 4 ∧
    (updateOccupancyGridRenderable png topic tex grid).texture.width = grid.info.width ∧
    (updateOccupancyGridRenderable png topic tex grid).texture.height = grid.info.height ∧
    ((updateOccupancyGridRenderable png topic tex grid).texture.gen =
      if grid.info.width = tex.width ∧ grid.info.height = tex.height then tex.gen
      else tex.gen + 1) ∧
    ((updateOccupancyGridRenderable png topic tex grid).disposedOld = true ↔
      ¬ (grid.info.width = tex.width ∧ grid.info.height = tex.height)) := by
  have hlen : (dispatchData png grid.data).length =
      grid.info.width * grid.info.height :=
    (update_error_none_iff png topic tex grid).mp hacc
  rw [update_accept png topic tex grid hlen]
  by_cases hdim : grid.info.width = tex.width ∧ grid.info.height = tex.height
  · have hne : ¬ (grid.info.width ≠ tex.width ∨ grid.info.height ≠ tex.height) := by
      tauto
    simp [hne, length_updateTexture, hinv, hdim.1, hdim.2]
  · have hor : grid.info.width ≠ tex.width ∨ grid.info.height ≠ tex.height := by
      tauto
    simp [hor, length_updateTexture, hdim]

/-- C8 witness: a concrete accepted 2-by-2 update over a matching texture. -/
theorem C8_texture_buffer_witness :
    tex2x2.image.length = tex2x2.width * tex2x2.height * 4 ∧
    (updateOccupancyGridRenderable pngNone "/w" tex2x2 grid2x2ok).error = none ∧
    ((updateOccupancyGridRenderable pngNone "/w" tex2x2 grid2x2ok).texture.image.length =
        grid2x2ok.info.width * grid2x2ok.info.height * 4 ∧
      (updateOccupancyGridRenderable pngNone "/w" tex2x2 grid2x2ok).texture.width =
        grid2x2ok.info.width ∧
      (updateOccupancyGridRenderable pngNone "/w" tex2x2 grid2x2ok).texture.height =
        grid2x2ok.info.height ∧
      ((updateOccupancyGridRenderable pngNone "/w" tex2x2 grid2x2ok).texture.gen =
        if grid2x2ok.info.width = tex2x2.width ∧ grid2x2ok.info.height = tex2x2.height
        then tex2x2.gen else tex2x2.gen + 1) ∧
      ((updateOccupancyGridRenderable pngNone "/w" tex2x2 grid2x2ok).disposedOld = true ↔
        ¬ (grid2x2ok.info.width = tex2x2.width ∧ grid2x2ok.info.height = tex2x2.height))) :=
  ⟨by decide, by decide,
    C8_texture_buffer pngNone "/w" tex2x2 grid2x2ok (by decide) (by decide)⟩

/-- C9: a grid message with missing (or empty) data and missing (or zero)
width and height normalizes to an empty canonical grid, which passes the
dimension check and is accepted with no error diagnostic. -/
theorem C9_empty_grid (png : List ℤ → List ℕ) (topic : String) (tex : Texture)
    (m : GridMsgOpt)
    (hd : m.data = none ∨ m.data = some [])
    (hw : m.width = none ∨ m.width = some 0)
    (hh : m.height = none ∨ m.height = some 0) :
    (normalizeOccupancyGrid m).data = [] ∧
    (normalizeOccupancyGrid m).info.width = 0 ∧
    (normalizeOccupancyGrid m).info.height = 0 ∧
    (normalizeOccupancyGrid m).data.length =
      (normalizeOccupancyGrid m).info.width * (normalizeOccupancyGrid m).info.height ∧
    (updateOccupancyGridRenderable png topic tex (normalizeOccupancyGrid m)).error = none := by
  have h1 : (normalizeOccupancyGrid m).data = [] := by
    rcases hd with h | h <;> simp [normalizeOccupancyGrid, normalizeInt8Array, h]
  have h2 : (normalizeOccupancyGrid m).info.width = 0 := by
    rcases hw with h | h <;> simp [normalizeOccupancyGrid, h]
  have h3 : (normalizeOccupancyGrid m).info.height = 0 := by
    rcases hh with h | h <;> simp [normalizeOccupancyGrid, h]
  have hdisp : dispatchData png (normalizeOccupancyGrid m).data = [] := by
    rw [h1]
    rfl
  refine ⟨h1, h2, h3, by rw [h1, h2]; simp, ?_⟩
  unfold updateOccupancyGridRenderable
  simp [hdisp, h2, h3]

/-- C9 witness: the all-absent grid message. -/
theorem C9_empty_grid_witness :
    (emptyGridMsg.data = none ∨ emptyGridMsg.data = some []) ∧
    (emptyGridMsg.width = none ∨ emptyGridMsg.width = some 0) ∧
    (emptyGridMsg.height = none ∨ emptyGridMsg.height = some 0) ∧
    ((normalizeOccupancyGrid emptyGridMsg).data = [] ∧
      (normalizeOccupancyGrid emptyGridMsg).info.width = 0 ∧
      (normalizeOccupancyGrid emptyGridMsg).info.height = 0 ∧
      (normalizeOccupancyGrid emptyGridMsg).data.length =
        (normalizeOccupancyGrid emptyGridMsg).info.width *
          (normalizeOccupancyGrid emptyGridMsg).info.height ∧
      (updateOccupancyGridRenderable pngNone "/e" tex2x2
        (normalizeOccupancyGrid emptyGridMsg)).error = none) :=
  ⟨Or.inl rfl, Or.inl rfl, Or.inl rfl,
    C9_empty_grid pngNone "/e" tex2x2 emptyGridMsg
      (Or.inl rfl) (Or.inl rfl) (Or.inl rfl)⟩

theorem typeSyncPhase_axis_preserves (st : PoseArrayState) (msg : PoseArrayQ)
    (h : st.settings.displayType = DisplayType.axis) :
    (typeSyncPhase st msg).arrows = st.arrows ∧
    (typeSyncPhase st msg).lineStrip = st.lineStrip := by
  unfold typeSyncPhase
  cases hd : st.settings.displayType
  · exact ⟨rfl, rfl⟩
  · rw [h] at hd; simp at hd
  · rw [h] at hd; simp at hd

theorem typeSyncPhase_arrow_preserves (st : PoseArrayState) (msg : PoseArrayQ)
    (h : st.settings.displayType = DisplayType.arrow) :
    (typeSyncPhase st msg).axes = st.axes ∧
    (typeSyncPhase st msg).lineStrip = st.lineStrip := by
  unfold typeSyncPhase
  cases hd : st.settings.displayType
  · rw [h] at hd; simp at hd
  · exact ⟨rfl, rfl⟩
  · rw [h] at hd; simp at hd

theorem typeSyncPhase_line_preserves (st : PoseArrayState) (msg : PoseArrayQ)
    (h : st.settings.displayType = DisplayType.line) :
    (typeSyncPhase st msg).axes = st.axes ∧
    (typeSyncPhase st msg).arrows = st.arrows := by
  unfold typeSyncPhase
  cases hd : st.settings.displayType
  · rw [h] at hd; simp at hd
  · rw [h] at hd; simp at hd
  · cases hl : st.lineStrip <;> exact ⟨rfl, rfl⟩

theorem releaseForType_axis (st : PoseArrayState) (msg : PoseArrayQ)
    (h : st.settings.displayType = DisplayType.axis) :
    (releaseForType st msg).arrows = [] ∧ (releaseForType st msg).lineStrip = none := by
  unfold releaseForType
  cases hd : st.settings.displayType
  · exact ⟨rfl, rfl⟩
  · rw [h] at hd; simp at hd
  · rw [h] at hd; simp at hd

theorem releaseForType_arrow (st : PoseArrayState) (msg : PoseArrayQ)
    (h : st.settings.displayType = DisplayType.arrow) :
    (releaseForType st msg).axes = [] ∧ (releaseForType st msg).lineStrip = none := by
  unfold releaseForType
  cases hd : st.settings.displayType
  · rw [h] at hd; simp at hd
  · exact ⟨rfl, rfl⟩
  · rw [h] at hd; simp at hd

theorem releaseForType_line (st : PoseArrayState) (msg : PoseArrayQ)
    (h : st.settings.displayType = DisplayType.line) :
    (releaseForType st msg).axes = [] ∧ (releaseForType st msg).arrows = [] := by
  unfold releaseForType
  cases hd : st.settings.displayType
  · rw [h] at hd; simp at hd
  · rw [h] at hd; simp at hd
  · cases hl : st.lineStrip <;> exact ⟨rfl, rfl⟩

theorem clearTrolleyIfOn_erase (st : PoseArrayState) (h : st.settings.trolley = true) :
    clearTrolleyIfOn st = { st with trolleyArrows := [] } := by
  unfold clearTrolleyIfOn
  rw [if_pos h]

theorem releasePools_settings (st : PoseArrayState) (msg : PoseArrayQ) :
    (releasePools st msg).settings = st.settings := by
  unfold releasePools
  rw [releaseForType_settings, clearTrolleyIfOn_settings]

theorem releasePools_trolleyArrows_off (st : PoseArrayState) (msg : PoseArrayQ)
    (h : st.settings.trolley = false) :
    (releasePools st msg).trolleyArrows = st.trolleyArrows := by
  unfold releasePools
  rw [releaseForType_trolleyArrows, clearTrolleyIfOn_of_off st h]

theorem releasePools_trolleyArrows_on (st : PoseArrayState) (msg : PoseArrayQ)
    (h : st.settings.trolley = true) :
    (releasePools st msg).trolleyArrows = [] := by
  unfold releasePools
  rw [releaseForType_trolleyArrows, clearTrolleyIfOn_of_on st h]

theorem releasePools_axis (st : PoseArrayState) (msg : PoseArrayQ)
    (h : st.settings.displayType = DisplayType.axis) :
    (releasePools st msg).arrows = [] ∧ (releasePools st msg).lineStrip = none := by
  unfold releasePools
  exact releaseForType_axis _ msg (by rw [clearTrolleyIfOn_settings]; exact h)

theorem releasePools_arrow (st : PoseArrayState) (msg : PoseArrayQ)
    (h : st.settings.displayType = DisplayType.arrow) :
    (releasePools st msg).axes = [] ∧ (releasePools st msg).lineStrip = none := by
  unfold releasePools
  exact releaseForType_arrow _ msg (by rw [clearTrolleyIfOn_settings]; exact h)

theorem releasePools_line (st : PoseArrayState) (msg : PoseArrayQ)
    (h : st.settings.displayType = DisplayType.line) :
    (releasePools st msg).axes = [] ∧ (releasePools st msg).arrows = [] := by
  unfold releasePools
  exact releaseForType_line _ msg (by rw [clearTrolleyIfOn_settings]; exact h)

theorem update_pose_changed (st : PoseArrayState) (msg : PoseArrayQ)
    (settings : Settings)
    (hch : settingsChanged settings st.settings st.arrows.length st.axes.length = true) :
    updatePoseArrayRenderable st msg settings =
      typeSyncPhase (trolleySyncPhase
        (releasePools { st with settings := settings, lastMessage := msg } msg) msg) msg := by
  unfold updatePoseArrayRenderable
  rw [hch]
  rfl

/-- C2: after each axis-mode or arrow-mode pool sync the pool has
`max existing target` children, exactly the first `target` are visible
(so the visible count equals the pose count and surplus children stay in
the pool invisible), and every child below `min existing target` keeps its
identity (it is updated in place, never recreated). -/
theorem C2_pool_sync (pool : List Axis) (apool : List Arrow) (count : ℕ)
    (scale : ℚ) (arrowScale : ℚ × ℚ × ℚ) (cs ce : ColorQ) (fa fb : ℕ) (i : ℕ)
    (hi : i < min pool.length count) (hj : i < min apool.length count) :
    (syncAxes pool count scale fa).length = max pool.length count ∧
    (syncAxes pool count scale fa).map Axis.visible =
      visFlags (max pool.length count) count ∧
    ((syncAxes pool count scale fa).map Axis.visible).count true = count ∧
    ((syncAxes pool count scale fa)[i]?).map Axis.id = (pool[i]?).map Axis.id ∧
    (syncArrows apool count arrowScale cs ce fb).length = max apool.length count ∧
    (syncArrows apool count arrowScale cs ce fb).map Arrow.visible =
      visFlags (max apool.length count) count ∧
    ((syncArrows apool count arrowScale cs ce fb).map Arrow.visible).count true = count ∧
    ((syncArrows apool count arrowScale cs ce fb)[i]?).map Arrow.id =
      (apool[i]?).map Arrow.id := by
  have hva : (syncAxes pool count scale fa).map Axis.visible =
      visFlags (max pool.length count) count :=
    map_visible_syncPool pool count _ _ _ Axis.visible
      (fun _ _ => rfl) (fun _ => rfl) (fun _ => rfl)
  have hvb : (syncArrows apool count arrowScale cs ce fb).map Arrow.visible =
      visFlags (max apool.length count) count :=
    map_visible_syncPool apool count _ _ _ Arrow.visible
      (fun _ _ => rfl) (fun _ => rfl) (fun _ => rfl)
  refine ⟨length_syncPool pool count _ _ _, hva, ?_, ?_,
    length_syncPool apool count _ _ _, hvb, ?_, ?_⟩
  · rw [hva, count_true_visFlags]
    omega
  · exact id_syncPool pool count
      (fun _ a => { a with visible := true, scale := scale })
      (fun i => { id := fa + (i - pool.length), visible := true, scale := scale,
                  pose := ChildPose.unset })
      (fun a => { a with visible := false }) Axis.id (fun _ _ => rfl) i hi
  · rw [hvb, count_true_visFlags]
    omega
  · exact id_syncPool apool count
      (fun i a => { a with visible := true,
                           marker := arrowMarkerFromIndex arrowScale cs ce i count })
      (fun i => { id := fb + (i - apool.length), visible := true,
                  marker := arrowMarkerFromIndex arrowScale cs ce i count,
                  pose := ChildPose.unset })
      (fun a => { a with visible := false }) Arrow.id (fun _ _ => rfl) i hj

/-- C2 witness: a pool of three axes and a pool of two arrows synced down to
a single pose. -/
theorem C2_pool_sync_witness :
    0 < min w2Axes.length 1 ∧ 0 < min w2Arrows.length 1 ∧
    ((syncAxes w2Axes 1 2 100).length = max w2Axes.length 1 ∧
      (syncAxes w2Axes 1 2 100).map Axis.visible = visFlags (max w2Axes.length 1) 1 ∧
      ((syncAxes w2Axes 1 2 100).map Axis.visible).count true = 1 ∧
      ((syncAxes w2Axes 1 2 100)[0]?).map Axis.id = (w2Axes[0]?).map Axis.id ∧
      (syncArrows w2Arrows 1 (1, 1, 1) gradStart gradEnd 200).length =
        max w2Arrows.length 1 ∧
      (syncArrows w2Arrows 1 (1, 1, 1) gradStart gradEnd 200).map Arrow.visible =
        visFlags (max w2Arrows.length 1) 1 ∧
      ((syncArrows w2Arrows 1 (1, 1, 1) gradStart gradEnd 200).map Arrow.visible).count
        true = 1 ∧
      ((syncArrows w2Arrows 1 (1, 1, 1) gradStart gradEnd 200)[0]?).map Arrow.id =
        (w2Arrows[0]?).map Arrow.id) :=
  ⟨by decide, by decide,
    C2_pool_sync w2Axes w2Arrows 1 2 (1, 1, 1) gradStart gradEnd 100 200 0
      (by decide) (by decide)⟩

/-- C4 (counterexample): for a single-pose array (`count = 1`) the gradient
parameter is `0 / 0`, a NaN, so the single arrow's colour is the NaN colour
and not the start colour as the claim states. -/
theorem C4_counterexample :
    (syncArrows [] 1 (1, 1, 1) gradStart gradEnd 0).map (fun a => a.marker.color) =
      [none] ∧
    childColor gradStart gradEnd 0 1 = none ∧
    childColor gradStart gradEnd 0 1 ≠ some gradStart := by
  refine ⟨?_, ?_, ?_⟩ <;> decide

/-- C4 (amended): for arrow and line modes the per-child colour at index `i`
of a `count`-pose array is the linear interpolation at `t = i / (count - 1)`
whenever `count ≥ 2`, so index 0 gets exactly the start colour and index
`count - 1` exactly the end colour; when `count = 1` the computed `t` is
`0 / 0` (NaN) and the single child's colour is the NaN colour, not the start
colour. -/
theorem C4_gradient_endpoints (cs ce : ColorQ) (count : ℕ) (h : 2 ≤ count) :
    childColor cs ce 0 count = some cs ∧
    childColor cs ce (count - 1) count = some ce ∧
    (lineGradientColors cs ce count)[0]? = some (some cs) ∧
    (lineGradientColors cs ce count)[count - 1]? = some (some ce) ∧
    childColor cs ce 0 1 = none := by
  have hne : count - 1 ≠ 0 := by omega
  have hq : ((count - 1 : ℕ) : ℚ) ≠ 0 := Nat.cast_ne_zero.mpr hne
  have h0 : childColor cs ce 0 count = some cs := by
    unfold childColor jsDiv
    rw [if_neg hne]
    simp only [Option.map_some']
    congr 1
    rw [Nat.cast_zero, zero_div]
    cases cs
    cases ce
    simp [rgbaGradient]
  have h1 : childColor cs ce (count - 1) count = some ce := by
    unfold childColor jsDiv
    rw [if_neg hne]
    simp only [Option.map_some']
    congr 1
    rw [div_self hq]
    cases cs
    cases ce
    simp only [rgbaGradient, ColorQ.mk.injEq, mul_one]
    refine ⟨by ring, by ring, by ring, by ring⟩
  have g0 : (lineGradientColors cs ce count)[0]? = some (childColor cs ce 0 count) := by
    unfold lineGradientColors
    rw [List.getElem?_map, List.getElem?_range (by omega : 0 < count)]
    rfl
  have g1 : (lineGradientColors cs ce count)[count - 1]? =
      some (childColor cs ce (count - 1) count) := by
    unfold lineGradientColors
    rw [List.getElem?_map, List.getElem?_range (by omega : count - 1 < count)]
    rfl
  exact ⟨h0, h1, by rw [g0, h0], by rw [g1, h1], rfl⟩

/-- C4 witness: the endpoints of a three-pose gradient with the source
file's default colours. -/
theorem C4_gradient_endpoints_witness :
    2 ≤ 3 ∧
    (childColor gradStart gradEnd 0 3 = some gradStart ∧
      childColor gradStart gradEnd (3 - 1) 3 = some gradEnd ∧
      (lineGradientColors gradStart gradEnd 3)[0]? = some (some gradStart) ∧
      (lineGradientColors gradStart gradEnd 3)[3 - 1]? = some (some gradEnd) ∧
      childColor gradStart gradEnd 0 1 = none) :=
  ⟨by decide, C4_gradient_endpoints gradStart gradEnd 3 (by decide)⟩

/-- C10: the vendor robot-state adapter maps each present element to the
position `(pose_x, pose_y, velocity_x)` — the z coordinate is the linear
velocity — with the orientation the quaternion of the Euler angles
`(-velocity_theta, 0, pose_theta)`, every absent field defaulting to 0 (the
absent `pose_theta` through the `THREE.Euler` constructor default), and a
missing element normalizing to the identity pose. -/
theorem C10_mir_pose (p : MirRobotState) :
    (normalizeMirPose (some p)).position.x = p.pose_x.getD 0 ∧
    (normalizeMirPose (some p)).position.y = p.pose_y.getD 0 ∧
    (normalizeMirPose (some p)).position.z = p.velocity_x.getD 0 ∧
    (normalizeMirPose (some p)).orientation =
      quatFromEulerXYZ (-(p.velocity_theta.getD 0)) 0 (p.pose_theta.getD 0) ∧
    normalizeMirPose none = defaultPoseR := by
  refine ⟨rfl, rfl, rfl, ?_, rfl⟩
  show setFromEuler
      (mkEuler (some (-1 * p.velocity_theta.getD 0)) (some 0) p.pose_theta) = _
  unfold setFromEuler mkEuler
  rw [Option.getD_some, Option.getD_some, neg_one_mul]

/-- C5 (counterexample): turning the trolley attachment *off* (the new
settings differ from the active ones only in `trolley`) does not release the
trolley-arrow pool: the previously built trolley arrow survives the settings
switch, so a pool of a no-longer-used mode outlives it. -/
theorem C5_counterexample :
    exSettingsBase.trolley = false ∧
    c5State.settings.trolley = true ∧
    exSettingsBase.displayType = c5State.settings.displayType ∧
    (updatePoseArrayRenderable c5State c5Msg exSettingsBase).trolleyArrows =
      [c5TrolleyArrow] ∧
    [c5TrolleyArrow] ≠ ([] : List Arrow) := by
  refine ⟨rfl, rfl, rfl, rfl, by simp⟩

/-- C5 (amended): on a settings change that switches the display mode or
toggles the trolley attachment, the pools of the display modes not used by
the new configuration are fully released before the new mode's pool is
built; the trolley-arrow pool is released (and rebuilt from empty, so the
result is independent of the old trolley pool) when the new settings have
the attachment enabled, but when the attachment is turned off the existing
trolley-arrow pool is not released — it survives the switch unchanged. -/
theorem C5_mode_switch (st : PoseArrayState) (msg : PoseArrayQ) (settings : Settings)
    (h : settings.displayType ≠ st.settings.displayType ∨
      settings.trolley ≠ st.settings.trolley) :
    (match settings.displayType with
      | DisplayType.axis =>
        (updatePoseArrayRenderable st msg settings).arrows = [] ∧
        (updatePoseArrayRenderable st msg settings).lineStrip = none
      | DisplayType.arrow =>
        (updatePoseArrayRenderable st msg settings).axes = [] ∧
        (updatePoseArrayRenderable st msg settings).lineStrip = none
      | DisplayType.line =>
        (updatePoseArrayRenderable st msg settings).axes = [] ∧
        (updatePoseArrayRenderable st msg settings).arrows = []) ∧
    (updatePoseArrayRenderable st msg settings).trolleyArrows =
      (if settings.trolley
        then (updatePoseArrayRenderable { st with trolleyArrows := [] } msg
          settings).trolleyArrows
        else st.trolleyArrows) := by
  have hch : settingsChanged settings st.settings st.arrows.length st.axes.length = true :=
    settingsChanged_of _ _ _ _ h
  have hchB : settingsChanged settings
      ({ st with trolleyArrows := [] } : PoseArrayState).settings
      ({ st with trolleyArrows := [] } : PoseArrayState).arrows.length
      ({ st with trolleyArrows := [] } : PoseArrayState).axes.length = true :=
    settingsChanged_of _ _ _ _ h
  rw [update_pose_changed st msg settings hch,
    update_pose_changed { st with trolleyArrows := [] } msg settings hchB]
  constructor
  · cases hd : settings.displayType
    case axis =>
      have hset : (trolleySyncPhase
          (releasePools { st with settings := settings, lastMessage := msg } msg)
          msg).settings.displayType = DisplayType.axis := by
        rw [trolleySyncPhase_settings, releasePools_settings]
        exact hd
      have hp := typeSyncPhase_axis_preserves _ msg hset
      have hr := releasePools_axis
        { st with settings := settings, lastMessage := msg } msg (by exact hd)
      exact ⟨by rw [hp.1, trolleySyncPhase_arrows]; exact hr.1,
        by rw [hp.2, trolleySyncPhase_lineStrip]; exact hr.2⟩
    case arrow =>
      have hset : (trolleySyncPhase
          (releasePools { st with settings := settings, lastMessage := msg } msg)
          msg).settings.displayType = DisplayType.arrow := by
        rw [trolleySyncPhase_settings, releasePools_settings]
        exact hd
      have hp := typeSyncPhase_arrow_preserves _ msg hset
      have hr := releasePools_arrow
        { st with settings := settings, lastMessage := msg } msg (by exact hd)
      exact ⟨by rw [hp.1, trolleySyncPhase_axes]; exact hr.1,
        by rw [hp.2, trolleySyncPhase_lineStrip]; exact hr.2⟩
    case line =>
      have hset : (trolleySyncPhase
          (releasePools { st with settings := settings, lastMessage := msg } msg)
          msg).settings.displayType = DisplayType.line := by
        rw [trolleySyncPhase_settings, releasePools_settings]
        exact hd
      have hp := typeSyncPhase_line_preserves _ msg hset
      have hr := releasePools_line
        { st with settings := settings, lastMessage := msg } msg (by exact hd)
      exact ⟨by rw [hp.1, trolleySyncPhase_axes]; exact hr.1,
        by rw [hp.2, trolleySyncPhase_arrows]; exact hr.2⟩
  · cases ht : settings.trolley
    case false =>
      rw [if_neg Bool.false_ne_true, typeSyncPhase_trolleyArrows,
        trolleySyncPhase_of_off _ msg
          (by rw [releasePools_settings]; exact ht),
        releasePools_trolleyArrows_off _ msg (by exact ht)]
    case true =>
      rw [if_pos rfl]
      have ht1 : ({ st with settings := settings,
                            lastMessage := msg } : PoseArrayState).settings.trolley =
          true := ht
      have ht2 : ({ { st with trolleyArrows := [] } with
                      settings := settings,
                      lastMessage := msg } : PoseArrayState).settings.trolley =
          true := ht
      have hRR : releasePools { st with settings := settings, lastMessage := msg } msg =
          releasePools { { st with trolleyArrows := [] } with
                           settings := settings,
                           lastMessage := msg } msg := by
        unfold releasePools
        rw [clearTrolleyIfOn_erase _ ht1, clearTrolleyIfOn_erase _ ht2]
      rw [hRR]

/-- C5 witness: a concrete axis-to-arrow display-mode switch. -/
theorem C5_mode_switch_witness :
    (c5wSettings.displayType ≠ c5wState.settings.displayType ∨
      c5wSettings.trolley ≠ c5wState.settings.trolley) ∧
    ((match c5wSettings.displayType with
      | DisplayType.axis =>
        (updatePoseArrayRenderable c5wState c5Msg c5wSettings).arrows = [] ∧
        (updatePoseArrayRenderable c5wState c5Msg c5wSettings).lineStrip = none
      | DisplayType.arrow =>
        (updatePoseArrayRenderable c5wState c5Msg c5wSettings).axes = [] ∧
        (updatePoseArrayRenderable c5wState c5Msg c5wSettings).lineStrip = none
      | DisplayType.line =>
        (updatePoseArrayRenderable c5wState c5Msg c5wSettings).axes = [] ∧
        (updatePoseArrayRenderable c5wState c5Msg c5wSettings).arrows = []) ∧
     (updatePoseArrayRenderable c5wState c5Msg c5wSettings).trolleyArrows =
      (if c5wSettings.trolley
        then (updatePoseArrayRenderable { c5wState with trolleyArrows := [] } c5Msg
          c5wSettings).trolleyArrows
        else c5wState.trolleyArrows)) :=
  ⟨Or.inl (by decide),
    C5_mode_switch c5wState c5Msg c5wSettings (Or.inl (by decide))⟩

end Thimble
